import Mathlib

/-!
# GeoCycle Dashboard — verification of the filtering-and-rendering pipeline

Shallow embedding of `src/app.py` (a Streamlit dashboard over a pandas
dataframe of waste-dumping sites) and proofs about it.

Modelling conventions:
* A dataframe cell that may be missing (pandas `NaN`) is an `Option String`;
  `none` is `NaN`.  Python's `str()` applied to `NaN` yields the literal
  string `"nan"`, which `astypeStr` reproduces.
* The pandas row index survives `dropna` and boolean-mask filtering, so a
  loaded row carries its original zero-based position in `idx`.
* `pd.to_numeric(..., errors="coerce")` is modelled by `toNumeric`, a plain
  decimal parser into the exact-decimal type `Dec` (scientific notation is
  not modelled; the claims quantify over the parser's outcome, not its
  grammar).  `Dec.toRat` gives the numeric value where arithmetic is
  needed (the map-center mean).
* Column *absence* (tested by `c not in df.columns`) is distinct from a
  present column holding `NaN` cells; the four `has…` flags of `RawTable`
  record which derived columns exist in the source file.
* The `_Alert` column is modelled as boolean-valued, matching the data
  model (the alert flag is a boolean derived column).
-/

/-- One row of the source CSV as read by `pd.read_csv`, restricted to the
columns the dashboard logic consults.  Every cell may be missing (`none`).
The four derived-column cells are only meaningful when the corresponding
`has…` flag of the enclosing `RawTable` is set. -/
structure RawRow where
  ward : Option String
  wasteTypes : Option String
  actors : Option String
  latitude : Option String
  longitude : Option String
  wasteCategory : Option String
  alert : Bool
  reasonsNorm : Option String
  interventionsNorm : Option String
deriving Repr, DecidableEq

/-- The raw CSV file: its rows plus, for each of the four derived columns,
whether that column is present in the file at all. -/
structure RawTable where
  hasWasteCategory : Bool
  hasAlert : Bool
  hasReasonsNorm : Bool
  hasInterventionsNorm : Bool
  rows : List RawRow
deriving Repr, DecidableEq

/-- An exact decimal number `num / 10 ^ scale`, the result of coercing a
coordinate cell to numeric.  Kept unreduced so that equality is
structural; `Dec.toRat` provides the value. -/
structure Dec where
  num : Int
  scale : Nat
deriving Repr, DecidableEq

/-- The numeric value of a `Dec`. -/
def Dec.toRat (d : Dec) : ℚ :=
  (d.num : ℚ) / (10 : ℚ) ^ d.scale

/-- A row of the loaded dataframe: coordinates successfully coerced to
numbers, derived columns guaranteed present.  `idx` is the pandas row
index (original position in the CSV), which `dropna` and mask filtering
preserve. -/
structure Row where
  idx : Nat
  latitude : Dec
  longitude : Dec
  ward : Option String
  wasteTypes : Option String
  actors : Option String
  wasteCategory : Option String
  alert : Bool
  reasonsNorm : Option String
  interventionsNorm : Option String
deriving Repr, DecidableEq

/-- The loaded dataframe. -/
structure Table where
  rows : List Row
deriving Repr, DecidableEq

/-- Fold a digit list into the `Nat` it denotes. -/
def digitsToNat (l : List Char) : Nat :=
  l.foldl (fun n c => 10 * n + (c.toNat - 48)) 0

/-- `l` is a non-empty run of decimal digits. -/
def isDigits (l : List Char) : Bool :=
  !l.isEmpty && l.all Char.isDigit

/-- Strip leading and trailing whitespace from a character list
(Python `str.strip`). -/
def trimChars (l : List Char) : List Char :=
  ((l.dropWhile Char.isWhitespace).reverse.dropWhile Char.isWhitespace).reverse

/-- Split a character list at every occurrence of `sep`
(Python `str.split(sep)`): `"".split(sep)` is `[""]`, and separators at
either end produce empty pieces. -/
def splitOnChar (sep : Char) : List Char → List (List Char)
  | [] => [[]]
  | c :: cs =>
    match splitOnChar sep cs, c == sep with
    | r, true => [] :: r
    | [], false => [[c]]
    | h :: t, false => (c :: h) :: t

/-- Plain decimal parser: optional sign, integer part, optional fractional
part, surrounding whitespace tolerated.  Stands in for the numeric
coercion performed by `pd.to_numeric`. -/
def parseDecimal (s : String) : Option Dec :=
  let l := trimChars s.data
  let (sign, body) : Int × List Char :=
    match l with
    | '-' :: rest => (-1, rest)
    | '+' :: rest => (1, rest)
    | _ => (1, l)
  match splitOnChar '.' body with
  | [i] =>
      if isDigits i then some ⟨sign * digitsToNat i, 0⟩ else none
  | [i, f] =>
      if (i.all Char.isDigit && f.all Char.isDigit)
          && !(i.isEmpty && f.isEmpty) then
        some ⟨sign * digitsToNat (i ++ f), f.length⟩
      else none
  | _ => none

/-- `pd.to_numeric(cell, errors="coerce")`: a missing cell stays missing,
an unparseable cell becomes missing, a numeric cell becomes its value. -/
def toNumeric (c : Option String) : Option Dec :=
  c.bind parseDecimal

/-- Load one raw row, given the raw table's column-presence flags and the
row's position `i`: coerce both coordinates (dropping the row when either
fails) and back-fill the four derived columns when absent from the file
(`False` for `_Alert`, `""` for the other three).  Mirrors the body of
`load_csv` row by row. -/
def loadRow (t : RawTable) (i : Nat) (raw : RawRow) : Option Row :=
  match toNumeric raw.latitude, toNumeric raw.longitude with
  | some la, some lo => some
      { idx := i
        latitude := la
        longitude := lo
        ward := raw.ward
        wasteTypes := raw.wasteTypes
        actors := raw.actors
        wasteCategory := if t.hasWasteCategory then raw.wasteCategory else some ""
        alert := if t.hasAlert then raw.alert else false
        reasonsNorm := if t.hasReasonsNorm then raw.reasonsNorm else some ""
        interventionsNorm :=
          if t.hasInterventionsNorm then raw.interventionsNorm else some "" }
  | _, _ => none

/-- `load_csv`: coerce `Latitude` and `Longitude` to numeric, drop rows in
which either is missing, back-fill missing derived columns. -/
def load_csv (t : RawTable) : Table :=
  ⟨t.rows.enum.filterMap fun p => loadRow t p.1 p.2⟩

/-- Python `str()` on a dataframe cell: `NaN` prints as `"nan"`. -/
def astypeStr : Option String → String
  | none => "nan"
  | some s => s

/-- Code-point lexicographic `≤` on character lists, the order Python uses
to compare strings. -/
def leChars : List Char → List Char → Bool
  | [], _ => true
  | _ :: _, [] => false
  | a :: as, b :: bs => if a = b then leChars as bs else decide (a.toNat < b.toNat)

/-- Insertion into a sorted list of strings. -/
def insertSorted (s : String) : List String → List String
  | [] => [s]
  | t :: ts => if leChars s.data t.data then s :: t :: ts else t :: insertSorted s ts

/-- Insertion sort on strings, modelling Python `sorted`. -/
def sortStrings (l : List String) : List String :=
  l.foldr insertSorted []

/-- `sorted(col.dropna().astype(str).unique())`: the option list offered by
one multiselect widget — missing cells dropped, duplicates removed,
result sorted. -/
def uniqueSorted (cells : List (Option String)) : List String :=
  sortStrings (cells.filterMap id).dedup

/-- `wards = sorted(df["Ward"].dropna().astype(str).unique())`. -/
def uniqueWards (df : Table) : List String :=
  uniqueSorted (df.rows.map Row.ward)

/-- `wastes = sorted(df["Waste Types"].dropna().astype(str).unique())`. -/
def uniqueWastes (df : Table) : List String :=
  uniqueSorted (df.rows.map Row.wasteTypes)

/-- `actors = sorted(df["Waste Management Actors"].dropna().astype(str).unique())`. -/
def uniqueActors (df : Table) : List String :=
  uniqueSorted (df.rows.map Row.actors)

/-- The per-row boolean mask, built exactly as in the script: start from
`True`, then `&=` one condition per nonempty selection (Python's `if sel:`
skips an empty list) and one for the alerts checkbox. -/
def rowMask (selWards selWastes selActors : List String) (alertsOnly : Bool)
    (r : Row) : Bool :=
  let m := true
  let m := if selWards.isEmpty then m else
    m && selWards.contains (astypeStr r.ward)
  let m := if selWastes.isEmpty then m else
    m && selWastes.contains (astypeStr r.wasteTypes)
  let m := if selActors.isEmpty then m else
    m && selActors.contains (astypeStr r.actors)
  let m := if alertsOnly then m && (r.alert == true) else m
  m

/-- `dfv = df[mask].copy()`: the filtered view. -/
def filterTable (df : Table) (selWards selWastes selActors : List String)
    (alertsOnly : Bool) : Table :=
  ⟨df.rows.filter (rowMask selWards selWastes selActors alertsOnly)⟩

/-- The fixed category→color dictionary of `color_for`. -/
def colorMap : List (String × String) :=
  [("Organic", "green"), ("Plastic", "red"), ("Paper", "orange"),
   ("Glass", "blue"), ("Metal", "gray"), ("E-waste", "black"),
   ("Mixed", "purple"), ("Others", "lightgray"), ("Unknown", "beige")]

/-- `color_for(cat, alert)`: red whenever the alert flag is set, otherwise
the dictionary lookup on the stringified category with default `"blue"`. -/
def color_for (cat : String) (alert : Bool) : String :=
  if alert then "red" else ((colorMap.lookup cat).getD "blue")

/-- The color of the marker built for row `r`:
`color_for(str(r["_WasteCategory"]), bool(r["_Alert"]))`. -/
def markerColor (r : Row) : String :=
  color_for (astypeStr r.wasteCategory) r.alert

/-- Modelled from the spec's words, for comparison with `color_for`: the
fixed category→color lookup "Organic→green, Plastic→red, Paper→orange,
Glass→blue, Metal→gray, E-waste→black, Mixed→purple, Others→light-gray,
Unknown→beige, and blue for any other category value". -/
def colorSpecLookup (cat : String) : String :=
  if cat = "Organic" then "green"
  else if cat = "Plastic" then "red"
  else if cat = "Paper" then "orange"
  else if cat = "Glass" then "blue"
  else if cat = "Metal" then "gray"
  else if cat = "E-waste" then "black"
  else if cat = "Mixed" then "purple"
  else if cat = "Others" then "lightgray"
  else if cat = "Unknown" then "beige"
  else "blue"

/-- Arithmetic mean of a list of rationals (only consulted on nonempty
lists). -/
def meanQ (l : List ℚ) : ℚ :=
  l.sum / l.length

/-- The map center: mean latitude/longitude of the filtered view, or the
fixed default `(0.5167, 35.2833)` when the view is empty. -/
def centerPoint (rows : List Row) : ℚ × ℚ :=
  (if rows.length ≠ 0 then meanQ (rows.map fun r => r.latitude.toRat)
   else (5167 : ℚ) / 10000,
   if rows.length ≠ 0 then meanQ (rows.map fun r => r.longitude.toRat)
   else (352833 : ℚ) / 10000)

/-- What a dashboard panel renders: either its chart payload or the
`st.info` placeholder message. -/
inductive Panel (α : Type) where
  | chart : α → Panel α
  | info : String → Panel α
deriving Repr, DecidableEq

/-- `d["_cat"] = d["_WasteCategory"].replace("", "Unknown")`: the empty
string becomes `"Unknown"`; a missing cell stays missing. -/
def catNorm (r : Row) : Option String :=
  match r.wasteCategory with
  | some s => some (if s = "" then "Unknown" else s)
  | none => none

/-- Occurrence counts of each distinct key, keys listed once each
(grouping order abstracted; pandas sorts group keys). -/
def countBy {α : Type} [DecidableEq α] (keys : List α) : List (α × Nat) :=
  keys.dedup.map fun k => (k, keys.count k)

/-- The "Waste by Ward" tab: placeholder when the filtered view is empty,
otherwise the `groupby(["Ward","_cat"]).size()` counts (pandas drops
groups whose key contains a missing value). -/
def wardChart (rows : List Row) : Panel (List ((String × String) × Nat)) :=
  if rows.isEmpty then Panel.info "No data in current filter."
  else Panel.chart (countBy (rows.filterMap fun r =>
    match r.ward, catNorm r with
    | some w, some c => some (w, c)
    | _, _ => none))

/-- Token extraction from one normalized free-text cell: split on commas,
strip each piece, keep pieces that are non-blank and not the literal
missing-value marker `"<NA>"`.  Mirrors
`[p.strip() for p in x.split(",") if p.strip() and p.strip() != "<NA>"]`. -/
def tokensOf (x : String) : List String :=
  (((splitOnChar ',' x.data).map fun p => String.mk (trimChars p)).filter
    fun p => !(p == "") && !(p == "<NA>"))

/-- All reason tokens of the filtered view, in row order
(`dfv["_ReasonsNormalized"].dropna().astype(str)` then tokenized). -/
def reasonsTokens (rows : List Row) : List String :=
  ((rows.filterMap Row.reasonsNorm).map tokensOf).flatten

/-- All intervention tokens of the filtered view. -/
def interTokens (rows : List Row) : List String :=
  ((rows.filterMap Row.interventionsNorm).map tokensOf).flatten

/-- The "Top Reasons for Dumping" panel: `value_counts()` of the reason
tokens, or the placeholder when there are none. -/
def reasonsPanel (rows : List Row) : Panel (List (String × Nat)) :=
  let toks := reasonsTokens rows
  if toks.isEmpty then
    Panel.info "No non-empty \x27Reasons for Dumping\x27 yet — chart hidden."
  else Panel.chart (countBy toks)

/-- The word-cloud panel: the space-joined intervention tokens fed to the
word-cloud generator, or the placeholder when there are none. -/
def interPanel (rows : List Row) : Panel String :=
  let toks := interTokens rows
  if toks.isEmpty then
    Panel.info "No non-empty \x27Proposed Interventions\x27 yet — word cloud hidden."
  else Panel.chart (String.intercalate " " toks)

/-- CSV-quote one field: wrap in double quotes, doubling inner quotes,
when the field contains a comma, quote or newline. -/
def csvField (s : String) : String :=
  if s.data.any fun c => c == ',' || c == '"' || c == '\n' then
    "\"" ++ (String.mk (s.data.flatMap fun c =>
      if c == '"' then ['"', '"'] else [c])) ++ "\""
  else s

/-- A missing cell serializes to the empty field. -/
def cellToCsv : Option String → String
  | none => ""
  | some s => csvField s

/-- One data row of `df.to_csv(index=False)` (numeric formatting
abstracted to `num/scale`; field order fixed). -/
def rowToCsv (r : Row) : String :=
  String.intercalate ","
    [cellToCsv r.ward, cellToCsv r.wasteTypes, cellToCsv r.actors,
     toString r.latitude.num ++ "e-" ++ toString r.latitude.scale,
     toString r.longitude.num ++ "e-" ++ toString r.longitude.scale,
     cellToCsv r.wasteCategory, if r.alert then "True" else "False",
     cellToCsv r.reasonsNorm, cellToCsv r.interventionsNorm]

/-- The header row of the exported CSV. -/
def csvHeader : String :=
  String.intercalate ","
    ["Ward", "Waste Types", "Waste Management Actors", "Latitude",
     "Longitude", "_WasteCategory", "_Alert", "_ReasonsNormalized",
     "_InterventionsNormalized"]

/-- The rows of the exported CSV: header first, then one row per record
(`to_csv_bytes` newline-joins these and UTF-8 encodes). -/
def to_csv_lines (df : Table) : List String :=
  csvHeader :: df.rows.map rowToCsv

/-- `to_csv_bytes`: the downloadable byte string, one `\n`-terminated line
per CSV row. -/
def to_csv_bytes (df : Table) : String :=
  String.join ((to_csv_lines df).map fun l => l ++ "\n")

/-! ## Concrete tables used for witnesses and counterexamples -/

/-- A fully populated raw row (valid coordinates, alert set). -/
def rowKapsoya : RawRow :=
  { ward := some "Kapsoya", wasteTypes := some "Plastic",
    actors := some "County", latitude := some "0.52",
    longitude := some "35.28", wasteCategory := some "Plastic",
    alert := true, reasonsNorm := some "Lack of bins, Negligence,",
    interventionsNorm := some "More bins" }

/-- A raw row with a missing `Ward` cell but valid coordinates, so it
survives loading. -/
def rowNoWard : RawRow :=
  { ward := none, wasteTypes := some "Organic", actors := some "County",
    latitude := some "0.53", longitude := some "35.29",
    wasteCategory := some "Organic", alert := false,
    reasonsNorm := none, interventionsNorm := none }

/-- A raw row whose latitude does not parse as a number. -/
def rowBadCoord : RawRow :=
  { ward := some "Langas", wasteTypes := some "Mixed",
    actors := some "Residents", latitude := some "abc",
    longitude := some "35.30", wasteCategory := some "Mixed",
    alert := false, reasonsNorm := some "Negligence",
    interventionsNorm := some "Cleanup" }

/-- A raw table whose second record has a missing `Ward` cell. -/
def rawNullWard : RawTable :=
  ⟨true, true, true, true, [rowKapsoya, rowNoWard]⟩

/-- The loaded form of `rawNullWard`. -/
def dfNullWard : Table := load_csv rawNullWard

/-- A raw table in which every categorical cell is present. -/
def rawClean : RawTable := ⟨true, true, true, true, [rowKapsoya]⟩

/-- The loaded form of `rawClean`. -/
def dfClean : Table := load_csv rawClean

/-- A raw table whose second record has an unparseable latitude. -/
def rawBadCoord : RawTable :=
  ⟨true, true, true, true, [rowKapsoya, rowBadCoord]⟩

/-- A raw table from a file missing all four derived columns. -/
def rawNoCols : RawTable := ⟨false, false, false, false, [rowKapsoya]⟩

/-- The row `load_csv` produces from `rowKapsoya` when all four derived
columns are absent from the file. -/
def rowNoColsLoaded : Row :=
  ⟨0, ⟨52, 2⟩, ⟨3528, 2⟩, some "Kapsoya", some "Plastic", some "County",
   some "", false, some "", some ""⟩

/-- A loaded row with the alert flag set, for the marker-color witness. -/
def rowAlertLoaded : Row :=
  ⟨0, ⟨52, 2⟩, ⟨3528, 2⟩, some "Kapsoya", some "Plastic", some "County",
   some "Organic", true, some "", some ""⟩

example : parseDecimal "0.5167" = some ⟨5167, 4⟩ := by decide
example : parseDecimal "abc" = none := by decide
example : parseDecimal " -2.5 " = some ⟨-25, 1⟩ := by decide
example : parseDecimal "" = none := by decide
example : parseDecimal "3" = some ⟨3, 0⟩ := by decide

/-! ## Helper lemmas -/

theorem rowMask_eq (w t a : List String) (ao : Bool) (r : Row) :
    rowMask w t a ao r =
      ((w.isEmpty || w.contains (astypeStr r.ward))
        && (t.isEmpty || t.contains (astypeStr r.wasteTypes))
        && (a.isEmpty || a.contains (astypeStr r.actors))
        && (!ao || r.alert)) := by
  unfold rowMask
  cases w <;> cases t <;> cases a <;> cases ao <;>
    simp [Bool.and_assoc, Bool.and_comm, Bool.and_left_comm]

theorem mem_insertSorted (s x : String) (l : List String) :
    x ∈ insertSorted s l ↔ x = s ∨ x ∈ l := by
  induction l with
  | nil => simp [insertSorted]
  | cons t ts ih =>
      unfold insertSorted
      by_cases h : leChars s.data t.data = true
      · simp [h]
      · simp [h, ih]
        tauto

theorem mem_sortStrings (x : String) (l : List String) :
    x ∈ sortStrings l ↔ x ∈ l := by
  induction l with
  | nil => simp [sortStrings]
  | cons t ts ih => simp [sortStrings] at ih ⊢; rw [mem_insertSorted]; simp [ih]

theorem mem_uniqueSorted (x : String) (cells : List (Option String)) :
    x ∈ uniqueSorted cells ↔ some x ∈ cells := by
  unfold uniqueSorted
  rw [mem_sortStrings, List.mem_dedup]
  simp [List.mem_filterMap]

/-! ## Claim theorems -/

/-- C1: a record is in the filtered view iff it is in the loaded table and
(selectedWards is empty OR its ward string is selected) AND
(selectedWasteTypes is empty OR its waste-type string is selected) AND
(selectedActors is empty OR its actor string is selected) AND
(alertsOnly is false OR its alert flag is true). -/
theorem mem_filterTable_iff (df : Table) (w t a : List String) (ao : Bool)
    (r : Row) :
    r ∈ (filterTable df w t a ao).rows ↔
      r ∈ df.rows
        ∧ (w = [] ∨ astypeStr r.ward ∈ w)
        ∧ (t = [] ∨ astypeStr r.wasteTypes ∈ t)
        ∧ (a = [] ∨ astypeStr r.actors ∈ a)
        ∧ (ao = false ∨ r.alert = true) := by
  simp [filterTable, List.mem_filter, rowMask_eq, List.isEmpty_iff]
  tauto

/-- C9: filtering is a deterministic pure function of its inputs — two
applications with identical arguments give identical views, and
re-filtering an already-filtered view with the same arguments changes
nothing (mutation of the underlying table is unrepresentable in this
functional embedding: `filterTable` returns a fresh view). -/
theorem filterTable_deterministic (df : Table) (w t a : List String)
    (ao : Bool) :
    filterTable df w t a ao = filterTable df w t a ao
      ∧ filterTable (filterTable df w t a ao) w t a ao
          = filterTable df w t a ao := by
  refine ⟨rfl, ?_⟩
  simp [filterTable, List.filter_filter]

/-- C10: the filtered view is a sublist of the loaded table's rows — the
mask only removes records and never reorders the kept ones. -/
theorem filterTable_sublist (df : Table) (w t a : List String) (ao : Bool) :
    (filterTable df w t a ao).rows.Sublist df.rows :=
  List.filter_sublist df.rows

theorem contains_uniqueSorted (cells : List (Option String)) (s : String)
    (h : some s ∈ cells) : (uniqueSorted cells).contains s = true := by
  simpa using (mem_uniqueSorted s cells).mpr h

theorem contains_uniqueWards (df : Table) (r : Row) (hr : r ∈ df.rows)
    (s : String) (hs : r.ward = some s) :
    (uniqueWards df).contains (astypeStr r.ward) = true := by
  rw [hs]
  exact contains_uniqueSorted _ s (hs ▸ List.mem_map_of_mem Row.ward hr)

theorem contains_uniqueWastes (df : Table) (r : Row) (hr : r ∈ df.rows)
    (s : String) (hs : r.wasteTypes = some s) :
    (uniqueWastes df).contains (astypeStr r.wasteTypes) = true := by
  rw [hs]
  exact contains_uniqueSorted _ s (hs ▸ List.mem_map_of_mem Row.wasteTypes hr)

theorem contains_uniqueActors (df : Table) (r : Row) (hr : r ∈ df.rows)
    (s : String) (hs : r.actors = some s) :
    (uniqueActors df).contains (astypeStr r.actors) = true := by
  rw [hs]
  exact contains_uniqueSorted _ s (hs ▸ List.mem_map_of_mem Row.actors hr)

/-- C2 (amended): for each dimension, filtering with the empty selection
equals filtering with the selection of every distinct non-null value of
that dimension, provided no record has a missing value in that dimension
(a record with a missing value is kept by the empty selection but, its
stringification being `"nan"`, is dropped by the code's full selection,
which excludes missing cells). -/
theorem filter_empty_eq_full (df : Table) (w t a : List String) (ao : Bool) :
    ((∀ r ∈ df.rows, r.ward ≠ none) →
      filterTable df [] t a ao = filterTable df (uniqueWards df) t a ao)
    ∧ ((∀ r ∈ df.rows, r.wasteTypes ≠ none) →
      filterTable df w [] a ao = filterTable df w (uniqueWastes df) a ao)
    ∧ ((∀ r ∈ df.rows, r.actors ≠ none) →
      filterTable df w t [] ao = filterTable df w t (uniqueActors df) ao) := by
  refine ⟨fun h => ?_, fun h => ?_, fun h => ?_⟩ <;>
    (unfold filterTable; congr 1; apply List.filter_congr; intro r hr)
  · obtain ⟨s, hs⟩ := Option.ne_none_iff_exists'.mp (h r hr)
    rw [rowMask_eq, rowMask_eq, contains_uniqueWards df r hr s hs]
    simp
  · obtain ⟨s, hs⟩ := Option.ne_none_iff_exists'.mp (h r hr)
    rw [rowMask_eq, rowMask_eq, contains_uniqueWastes df r hr s hs]
    simp
  · obtain ⟨s, hs⟩ := Option.ne_none_iff_exists'.mp (h r hr)
    rw [rowMask_eq, rowMask_eq, contains_uniqueActors df r hr s hs]
    simp

/-- C2 witness: on a table with no missing ward cells, the empty ward
selection and the full ward selection give the same filtered view. -/
theorem filter_empty_eq_full_witness :
    filterTable dfClean [] [] [] false
      = filterTable dfClean (uniqueWards dfClean) [] [] false :=
  (filter_empty_eq_full dfClean [] [] [] false).1 (by decide)

/-- C2 counterexample: a loaded table containing a record with a missing
ward cell; the empty ward selection keeps it while the full selection
(the code's distinct-ward list, which drops missing cells) excludes it. -/
theorem filter_empty_ne_full_cex :
    filterTable dfNullWard [] [] [] false
      ≠ filterTable dfNullWard (uniqueWards dfNullWard) [] [] false := by
  decide

/-- C4 (amended): serializing the view filtered with the full selection
for each dimension and alertsOnly = false yields a CSV with one header
line plus exactly one data row per loaded record, provided no record has
a missing ward, waste-type or actor cell (a record with a missing cell in
one of these dimensions is excluded by the code's full selection). -/
theorem to_csv_full_selection_rowcount (df : Table)
    (h : ∀ r ∈ df.rows, r.ward ≠ none ∧ r.wasteTypes ≠ none ∧ r.actors ≠ none) :
    (to_csv_lines (filterTable df (uniqueWards df) (uniqueWastes df)
      (uniqueActors df) false)).length = df.rows.length + 1 := by
  have hfull : (filterTable df (uniqueWards df) (uniqueWastes df)
      (uniqueActors df) false).rows = df.rows := by
    unfold filterTable
    apply List.filter_eq_self.mpr
    intro r hr
    obtain ⟨hw, ht, ha⟩ := h r hr
    obtain ⟨s1, hs1⟩ := Option.ne_none_iff_exists'.mp hw
    obtain ⟨s2, hs2⟩ := Option.ne_none_iff_exists'.mp ht
    obtain ⟨s3, hs3⟩ := Option.ne_none_iff_exists'.mp ha
    rw [rowMask_eq, contains_uniqueWards df r hr s1 hs1,
      contains_uniqueWastes df r hr s2 hs2,
      contains_uniqueActors df r hr s3 hs3]
    simp
  simp [to_csv_lines, hfull, Nat.add_comm]

/-- C4 witness: on a table with no missing categorical cells the exported
CSV has exactly rows + 1 lines. -/
theorem to_csv_full_selection_rowcount_witness :
    (to_csv_lines (filterTable dfClean (uniqueWards dfClean)
      (uniqueWastes dfClean) (uniqueActors dfClean) false)).length
      = dfClean.rows.length + 1 :=
  to_csv_full_selection_rowcount dfClean (by decide)

/-- C4 counterexample: on a loaded table containing a record with a
missing ward cell, the CSV serialized from the full-selection filtered
view has fewer data rows than the loaded table has records. -/
theorem to_csv_full_selection_rowcount_cex :
    (to_csv_lines (filterTable dfNullWard (uniqueWards dfNullWard)
      (uniqueWastes dfNullWard) (uniqueActors dfNullWard) false)).length - 1
      ≠ dfNullWard.rows.length := by
  decide

theorem loadRow_inv (t : RawTable) (i : Nat) (raw : RawRow) (r : Row)
    (h : loadRow t i raw = some r) :
    r.idx = i ∧ toNumeric raw.latitude = some r.latitude
      ∧ toNumeric raw.longitude = some r.longitude := by
  unfold loadRow at h
  split at h
  next la lo hla hlo =>
    cases h
    exact ⟨rfl, hla, hlo⟩
  next => exact Option.noConfusion h

/-- C3: every record of the loaded table comes from an input row (at the
record's index) whose latitude and longitude both coerce to numbers; an
input row whose latitude or longitude is missing or unparseable
contributes no record — its index is absent from the loaded table. -/
theorem load_csv_coord_validity (t : RawTable) :
    (∀ r ∈ (load_csv t).rows,
      ∃ raw, t.rows[r.idx]? = some raw
        ∧ toNumeric raw.latitude = some r.latitude
        ∧ toNumeric raw.longitude = some r.longitude)
    ∧ (∀ i raw, t.rows[i]? = some raw →
        toNumeric raw.latitude = none ∨ toNumeric raw.longitude = none →
        i ∉ (load_csv t).rows.map Row.idx) := by
  constructor
  · intro r hr
    unfold load_csv at hr
    simp only [List.mem_filterMap] at hr
    obtain ⟨⟨i, raw⟩, hmem, hload⟩ := hr
    obtain ⟨hidx, hla, hlo⟩ := loadRow_inv t i raw r hload
    refine ⟨raw, ?_, hla, hlo⟩
    rw [hidx]
    exact List.mk_mem_enum_iff_getElem?.mp hmem
  · intro i raw hget hbad hin
    simp only [List.mem_map] at hin
    obtain ⟨r, hr, hidx⟩ := hin
    unfold load_csv at hr
    simp only [List.mem_filterMap] at hr
    obtain ⟨⟨j, raw2⟩, hmem, hload⟩ := hr
    obtain ⟨hj, hla, hlo⟩ := loadRow_inv t j raw2 r hload
    have hget2 : t.rows[j]? = some raw2 :=
      List.mk_mem_enum_iff_getElem?.mp hmem
    have hji : j = i := by rw [← hj, hidx]
    rw [hji, hget] at hget2
    cases hget2
    rcases hbad with hb | hb
    · rw [hla] at hb
      exact Option.noConfusion hb
    · rw [hlo] at hb
      exact Option.noConfusion hb

/-- C3 witness: the input row at index 1 of `rawBadCoord` has an
unparseable latitude, and index 1 indeed appears nowhere in the loaded
table. -/
theorem load_csv_coord_validity_witness :
    (1 : Nat) ∉ (load_csv rawBadCoord).rows.map Row.idx :=
  (load_csv_coord_validity rawBadCoord).2 1 rowBadCoord (by decide)
    (Or.inl (by decide))

/-- C5: after loading, each of the four derived columns is populated for
every record, and when a derived column is absent from the source file it
is back-filled with `false` (the alert flag) or the empty string (the
other three). -/
theorem load_csv_derived_defaults (t : RawTable) :
    ∀ r ∈ (load_csv t).rows,
      (t.hasWasteCategory = false → r.wasteCategory = some "")
      ∧ (t.hasAlert = false → r.alert = false)
      ∧ (t.hasReasonsNorm = false → r.reasonsNorm = some "")
      ∧ (t.hasInterventionsNorm = false → r.interventionsNorm = some "") := by
  intro r hr
  unfold load_csv at hr
  simp only [List.mem_filterMap] at hr
  obtain ⟨⟨i, raw⟩, hmem, hload⟩ := hr
  unfold loadRow at hload
  split at hload
  next la lo hla hlo =>
    cases hload
    refine ⟨fun h => ?_, fun h => ?_, fun h => ?_, fun h => ?_⟩ <;> simp [h]
  next => exact Option.noConfusion hload

/-- C5 witness: loading `rawNoCols` (no derived columns in the file)
produces `rowNoColsLoaded`, whose four derived fields carry the
defaults. -/
theorem load_csv_derived_defaults_witness :
    rowNoColsLoaded.wasteCategory = some "" ∧ rowNoColsLoaded.alert = false
      ∧ rowNoColsLoaded.reasonsNorm = some ""
      ∧ rowNoColsLoaded.interventionsNorm = some "" := by
  have h := load_csv_derived_defaults rawNoCols rowNoColsLoaded (by decide)
  exact ⟨h.1 rfl, h.2.1 rfl, h.2.2.1 rfl, h.2.2.2 rfl⟩

/-- C6: every extracted token is a comma-piece of the input with
surrounding whitespace stripped, and is neither blank nor the literal
missing-value marker; on `"Lack of bins, Negligence,"` extraction yields
exactly `["Lack of bins", "Negligence"]`. -/
theorem tokensOf_spec :
    (∀ x tok, tok ∈ tokensOf x →
      (∃ piece ∈ splitOnChar ',' x.data, tok = String.mk (trimChars piece))
      ∧ tok ≠ "" ∧ tok ≠ "<NA>")
    ∧ tokensOf "Lack of bins, Negligence," = ["Lack of bins", "Negligence"] := by
  constructor
  · intro x tok h
    unfold tokensOf at h
    obtain ⟨hmap, hcond⟩ := List.mem_filter.mp h
    obtain ⟨piece, hp, he⟩ := List.mem_map.mp hmap
    refine ⟨⟨piece, hp, he.symm⟩, ?_, ?_⟩ <;>
      · intro e
        subst e
        simp at hcond
  · decide

/-- C6 witness: the token `"Negligence"` extracted from the scenario
string is non-blank and is not the missing-value marker. -/
theorem tokensOf_spec_witness :
    "Negligence" ≠ "" ∧ "Negligence" ≠ "<NA>" := by
  have h := tokensOf_spec.1 "Lack of bins, Negligence," "Negligence" (by decide)
  exact ⟨h.2.1, h.2.2⟩

theorem lookup_colorMap (c : String) :
    (colorMap.lookup c).getD "blue" = colorSpecLookup c := by
  unfold colorMap colorSpecLookup
  by_cases h1 : c = "Organic"
  · simp [List.lookup, h1]
  by_cases h2 : c = "Plastic"
  · simp [List.lookup, h1, h2]
  by_cases h3 : c = "Paper"
  · simp [List.lookup, h1, h2, h3]
  by_cases h4 : c = "Glass"
  · simp [List.lookup, h1, h2, h3, h4]
  by_cases h5 : c = "Metal"
  · simp [List.lookup, h1, h2, h3, h4, h5]
  by_cases h6 : c = "E-waste"
  · simp [List.lookup, h1, h2, h3, h4, h5, h6]
  by_cases h7 : c = "Mixed"
  · simp [List.lookup, h1, h2, h3, h4, h5, h6, h7]
  by_cases h8 : c = "Others"
  · simp [List.lookup, h1, h2, h3, h4, h5, h6, h7, h8]
  by_cases h9 : c = "Unknown"
  · simp [List.lookup, h1, h2, h3, h4, h5, h6, h7, h8, h9]
  simp [List.lookup, h1, h2, h3, h4, h5, h6, h7, h8, h9,
    beq_eq_false_iff_ne.mpr h1, beq_eq_false_iff_ne.mpr h2,
    beq_eq_false_iff_ne.mpr h3, beq_eq_false_iff_ne.mpr h4,
    beq_eq_false_iff_ne.mpr h5, beq_eq_false_iff_ne.mpr h6,
    beq_eq_false_iff_ne.mpr h7, beq_eq_false_iff_ne.mpr h8,
    beq_eq_false_iff_ne.mpr h9]

/-- C7: a marker's color is red whenever the record's alert flag is set,
regardless of category; otherwise it is exactly the spec's fixed
category→color lookup (with `"blue"` for any unlisted category value)
applied to the record's stringified category. -/
theorem markerColor_spec (r : Row) :
    (r.alert = true → markerColor r = "red")
    ∧ (r.alert = false →
        markerColor r = colorSpecLookup (astypeStr r.wasteCategory)) := by
  constructor
  · intro h
    simp [markerColor, color_for, h]
  · intro h
    simp only [markerColor, color_for, h, Bool.false_eq_true, if_false]
    exact lookup_colorMap _

/-- C7 witness: a concrete alerted record with category `"Organic"` gets a
red marker despite the category mapping to green. -/
theorem markerColor_spec_witness : markerColor rowAlertLoaded = "red" :=
  (markerColor_spec rowAlertLoaded).1 rfl

/-- C8: when the filtered view is empty, the map is centered at the fixed
default coordinate (0.5167, 35.2833) and each of the three aggregation
panels renders its informational placeholder message. -/
theorem empty_filtered_view_render (df : Table) (w t a : List String)
    (ao : Bool) (h : (filterTable df w t a ao).rows = []) :
    centerPoint (filterTable df w t a ao).rows
        = ((5167 : ℚ) / 10000, (352833 : ℚ) / 10000)
      ∧ wardChart (filterTable df w t a ao).rows
        = Panel.info "No data in current filter."
      ∧ reasonsPanel (filterTable df w t a ao).rows
        = Panel.info "No non-empty \x27Reasons for Dumping\x27 yet — chart hidden."
      ∧ interPanel (filterTable df w t a ao).rows
        = Panel.info
            "No non-empty \x27Proposed Interventions\x27 yet — word cloud hidden." := by
  rw [h]
  exact ⟨rfl, rfl, rfl, rfl⟩

/-- C8 witness: a filter selection matching no record of `dfNullWard`
yields the default map center and the three placeholders. -/
theorem empty_filtered_view_render_witness :
    centerPoint (filterTable dfNullWard ["Zzz"] [] [] false).rows
        = ((5167 : ℚ) / 10000, (352833 : ℚ) / 10000)
      ∧ wardChart (filterTable dfNullWard ["Zzz"] [] [] false).rows
        = Panel.info "No data in current filter."
      ∧ reasonsPanel (filterTable dfNullWard ["Zzz"] [] [] false).rows
        = Panel.info "No non-empty \x27Reasons for Dumping\x27 yet — chart hidden."
      ∧ interPanel (filterTable dfNullWard ["Zzz"] [] [] false).rows
        = Panel.info
            "No non-empty \x27Proposed Interventions\x27 yet — word cloud hidden." :=
  empty_filtered_view_render dfNullWard ["Zzz"] [] [] false (by decide)
